import Mathlib

/-!
Verification model of the PreCheck AI content-risk pipeline
(`precheck AI/app_real.py`).

The pipeline logic is embedded shallowly:
* pure helper functions of the app (`calculate_similarity`,
  `check_plagiarism`, `fake_sensitive_check`, `read_reference_file`, the
  risk-level decision of the Results tab) become Lean functions;
* filesystem side effects (the temporary files `temp_video.mp4`,
  `temp_audio.wav`, `temp_ref.pdf`, `temp_ref.docx`) are threaded as an
  explicit state `FS`, the list of files currently present;
* Python exceptions become `Except Unit`;
* the two external effects (ffmpeg extraction, Whisper transcription) are
  oracle parameters of the orchestrator: extraction success is a `Bool`,
  the transcription outcome an `Option String` (`none` models the caught
  exception path that returns `None`).

Scores are natural numbers (the displayed percentages).
-/

/-- Lexicographic strict comparison of character lists by code point,
the order Python's `sorted` uses on strings. -/
def strLtB : List Char → List Char → Bool
  | [], [] => false
  | [], _ :: _ => true
  | _ :: _, [] => false
  | a :: as, b :: bs =>
    if a.toNat < b.toNat then true
    else if b.toNat < a.toNat then false
    else strLtB as bs

/-- Non-strict string comparison used for sorting token sets. -/
def strLeB (a b : String) : Bool := !(strLtB b.toList a.toList)

/-- Insertion step of the sort modelling Python's `sorted`. -/
def insertStr (x : String) : List String → List String
  | [] => [x]
  | y :: ys => if strLeB x y then x :: y :: ys else y :: insertStr x ys

/-- Ascending sort of a token list, modelling Python's `sorted`.  On the
duplicate-free token sets it is applied to, any correct ascending sort
produces the same list. -/
def sortStrings : List String → List String
  | [] => []
  | x :: xs => insertStr x (sortStrings xs)

/-- Whitespace splitter: accumulates the current word (reversed) and drops
empty fragments, exactly like Python's `str.split()` with no argument. -/
def splitTokens : List Char → List Char → List String
  | [], acc => if acc.isEmpty then [] else [String.mk acc.reverse]
  | c :: cs, acc =>
    if c.isWhitespace then
      if acc.isEmpty then splitTokens cs []
      else String.mk acc.reverse :: splitTokens cs []
    else splitTokens cs (c :: acc)

/-- The whitespace-separated words of a string (Python `s.split()`). -/
def tokens (s : String) : List String := splitTokens s.toList []

/-- The sorted duplicate-free token set of a string: Python
`sorted(set(s.split()))`. -/
def sortedTokenSet (s : String) : List String := sortStrings (tokens s).dedup

/-- Fuel-bounded longest-common-subsequence length; the wrapper `lcsLen`
always supplies enough fuel, the fuel only makes the recursion structural. -/
def lcsAux : Nat → List Char → List Char → Nat
  | 0, _, _ => 0
  | _ + 1, [], _ => 0
  | _ + 1, _ :: _, [] => 0
  | fuel + 1, a :: as, b :: bs =>
    if a = b then lcsAux fuel as bs + 1
    else max (lcsAux fuel (a :: as) bs) (lcsAux fuel as (b :: bs))

/-- Longest-common-subsequence length of two character lists. -/
def lcsLen (a b : List Char) : Nat := lcsAux (a.length + b.length) a b

/-- Modelled from the spec: the normalized InDel (insertion/deletion)
similarity underlying the fuzzy matcher, scaled to [0,100] and rounded to
the nearest integer.  The matching library (`rapidfuzz.fuzz`) is not part
of the repository; the spec describes the scorer as a bounded symmetric
overlap ratio, an integer in [0,100].  For texts `a`, `b` the InDel
similarity is `2·lcs/(|a|+|b|)`; `(400·lcs + S) / (2·S)` is that value
scaled by 100 and rounded half-up using natural division.  Two empty
texts are identical, hence score 100. -/
def ratioN (a b : List Char) : Nat :=
  if a.length + b.length = 0 then 100
  else (400 * lcsLen a b + (a.length + b.length)) / (2 * (a.length + b.length))

/-- Space-joined concatenation of a token list (`" ".join(tokens)`). -/
def joinTokens : List String → List Char
  | [] => []
  | [t] => t.toList
  | t :: ts => t.toList ++ ' ' :: joinTokens ts

/-- Tokens of `s1` also occurring in `s2` (sorted set intersection). -/
def interTokens (s1 s2 : String) : List String :=
  (sortedTokenSet s1).filter (fun w => decide (w ∈ sortedTokenSet s2))

/-- Tokens of `s1` not occurring in `s2` (sorted set difference). -/
def diffTokens (s1 s2 : String) : List String :=
  (sortedTokenSet s1).filter (fun w => decide (w ∉ sortedTokenSet s2))

/-- Modelled from the spec: `rapidfuzz.fuzz.token_set_ratio`, the
similarity metric called by `calculate_similarity`; the library is not
part of the repository.  Per the spec it is a token-set overlap ratio —
order-independent, duplicate-insensitive, an integer in [0,100] — with
`score(t, "") = 0`, which forces the standard guard returning 0 when
either token set is empty (also the documented behaviour of the fuzzy
matching libraries).  Otherwise it is the maximum of the pairwise ratios
of the space-joined sorted intersection and the two sorted one-sided
unions. -/
def token_set_ratioNat (s1 s2 : String) : Nat :=
  if (sortedTokenSet s1).isEmpty || (sortedTokenSet s2).isEmpty then 0
  else
    max
      (ratioN (joinTokens (interTokens s1 s2))
        (joinTokens (interTokens s1 s2 ++ diffTokens s1 s2)))
      (max
        (ratioN (joinTokens (interTokens s1 s2))
          (joinTokens (interTokens s1 s2 ++ diffTokens s2 s1)))
        (ratioN (joinTokens (interTokens s1 s2 ++ diffTokens s1 s2))
          (joinTokens (interTokens s1 s2 ++ diffTokens s2 s1))))

/-- `calculate_similarity(text1, text2)` of `app_real.py`: delegates to
the token-set ratio. -/
def calculate_similarity (text1 text2 : String) : Nat :=
  token_set_ratioNat text1 text2

/-- Modelled from the spec: Python's `random.randint(lo, hi)` (standard
library, not part of the repository), which per the spec draws a
pseudo-random integer in the closed interval `[lo, hi]`.  Modelled as a
pure function of an explicit seed, uniform over the interval. -/
def randint (lo hi seed : Nat) : Nat := lo + seed % (hi + 1 - lo)

/-- ASCII lowercasing of one character, modelling Python `str.lower` on
the alphabet the keyword list uses. -/
def lowerChar (c : Char) : Char :=
  if 'A' ≤ c ∧ c ≤ 'Z' then Char.ofNat (c.toNat + 32) else c

/-- Lowercased copy of a string (Python `text.lower()`). -/
def lowerStr (s : String) : String := String.mk (s.toList.map lowerChar)

/-- Bool-valued prefix test on character lists. -/
def isPrefixB : List Char → List Char → Bool
  | [], _ => true
  | _ :: _, [] => false
  | p :: ps, c :: cs => p == c && isPrefixB ps cs

/-- Bool-valued contiguous-substring test (Python's `in` on strings):
`isInfixB pat s` holds iff `pat` occurs contiguously in `s`. -/
def isInfixB (pat : List Char) : List Char → Bool
  | [] => pat.isEmpty
  | c :: cs => isPrefixB pat (c :: cs) || isInfixB pat cs

/-- `sub in s` for strings. -/
def strContains (s sub : String) : Bool := isInfixB sub.toList s.toList

/-- The fixed multilingual keyword list of `fake_sensitive_check`. -/
def keywords : List String :=
  ["kill", "murder", "attack", "shoot", "gun", "knife", "bomb", "blood",
   "fight", "violence", "terror", "threat", "death", "suicide", "rape",
   "abuse", "hate", "racist", "caste", "religion", "slur", "discriminate",
   "insult", "drug", "cocaine", "heroin", "weed", "alcohol", "drink",
   "smoke", "liquor", "sex", "porn", "nude", "fuck", "shit", "bitch",
   "asshole", "bastard", "dick", "pussy", "boobs", "cock", "screw",
   "whore", "slut", "வெறுப்பு", "கொலை", "தாக்குதல்", "குண்டு", "கத்தி",
   "இனவெறி", "பாலியல்", "அவமதிப்பு", "மருந்து", "குடி", "மோசடி",
   "தூண்டுதல்", "சாவு", "அடிச்சு", "சாணம்"]

/-- `fake_sensitive_check(text)` of `app_real.py`:
`[k for k in keywords if k.lower() in text.lower()]`. -/
def fake_sensitive_check (text : String) : List String :=
  keywords.filter (fun k => strContains (lowerStr text) (lowerStr k))

/-- The three-level risk verdict of the Results tab. -/
inductive Risk where
  | low
  | medium
  | high
deriving DecidableEq

/-- Risk computation of the Results tab (`app_real.py` lines 188–193):
HIGH if `plag_percent > 75` or sensitive words were found, else MEDIUM if
`plag_percent > 40`, else LOW. -/
def riskLevel (plag_percent : Nat) (sensitive_words : List String) : Risk :=
  if 75 < plag_percent ∨ sensitive_words ≠ [] then Risk.high
  else if 40 < plag_percent then Risk.medium
  else Risk.low

/-- Numeric severity of a verdict, for stating monotonicity
(LOW < MEDIUM < HIGH). -/
def riskRank : Risk → Nat
  | Risk.low => 0
  | Risk.medium => 1
  | Risk.high => 2

/-- Filesystem state: the list of file paths currently present.  The app
only ever touches its four reserved temporary paths. -/
abbrev FS := List String

/-- Effect of `open(path, "wb")`: the file exists afterwards. -/
def createFile (n : String) (fs : FS) : FS := if n ∈ fs then fs else n :: fs

/-- Effect of `os.remove(path)`. -/
def removeFile (n : String) (fs : FS) : FS := fs.erase n

/-- An uploaded reference document, abstracted by the extension its file
name ends in (the dispatch of `read_reference_file`) together with the
outcome of parsing it: `txt` decoding with `errors="ignore"` cannot fail;
for `pdf`/`docx` the payload is `some text` when the extractor returns
text and `none` when it raises; `other` is any name matching no branch. -/
inductive RefFile where
  | txt (content : String)
  | pdf (parse : Option String)
  | docx (parse : Option String)
  | other
deriving DecidableEq

/-- `read_reference_file(file)` of `app_real.py`, with its filesystem
effects: the pdf/docx branches first write the temporary copy
(`temp_ref.pdf` / `temp_ref.docx`), then parse it — a parse exception
propagates (there is no try/except in this function) and skips the
`os.remove`, so the temporary copy stays behind; on success the copy is
removed.  A name matching no branch returns the initial empty text. -/
def read_reference_file : RefFile → FS → Except Unit String × FS
  | RefFile.txt c, fs => (Except.ok c, fs)
  | RefFile.pdf p, fs =>
    let fs1 := createFile "temp_ref.pdf" fs
    match p with
    | some t => (Except.ok t, removeFile "temp_ref.pdf" fs1)
    | none => (Except.error (), fs1)
  | RefFile.docx p, fs =>
    let fs1 := createFile "temp_ref.docx" fs
    match p with
    | some t => (Except.ok t, removeFile "temp_ref.docx" fs1)
    | none => (Except.error (), fs1)
  | RefFile.other, fs => (Except.ok "", fs)

/-- The text a reference contributes when its loading succeeds. -/
def refText : RefFile → String
  | RefFile.txt c => c
  | RefFile.pdf (some t) => t
  | RefFile.docx (some t) => t
  | _ => ""

/-- A reference whose loading raises no exception. -/
def refOk : RefFile → Bool
  | RefFile.pdf none => false
  | RefFile.docx none => false
  | _ => true

/-- Python `max` over a non-empty list (`max(similarities)`); the `[]`
case is never reached by the caller. -/
def maxList : List Nat → Nat
  | [] => 0
  | x :: xs => xs.foldl max x

/-- The `for ref in reference_files` loop of `check_plagiarism`,
accumulating `similarities`; an exception from `read_reference_file`
propagates and aborts the loop. -/
def plagLoop (transcript : String) :
    List RefFile → FS → List Nat → Except Unit (List Nat) × FS
  | [], fs, sims => (Except.ok sims, fs)
  | r :: rs, fs, sims =>
    match read_reference_file r fs with
    | (Except.error e, fs1) => (Except.error e, fs1)
    | (Except.ok txt, fs1) =>
      plagLoop transcript rs fs1
        (sims ++ [calculate_similarity transcript txt])

/-- `check_plagiarism(transcript, reference_files)` of `app_real.py`:
with no references, a random draw in [15,50]; otherwise the per-reference
similarities are collected and their maximum returned (the trailing
random draw is dead code for a non-empty reference list). -/
def check_plagiarism (transcript : String) (reference_files : List RefFile)
    (seed : Nat) (fs : FS) : Except Unit Nat × FS :=
  if reference_files.isEmpty then (Except.ok (randint 15 50 seed), fs)
  else
    match plagLoop transcript reference_files fs [] with
    | (Except.error e, fs1) => (Except.error e, fs1)
    | (Except.ok sims, fs1) =>
      if sims.isEmpty then (Except.ok (randint 15 50 seed), fs1)
      else (Except.ok (maxList sims), fs1)

/-- The analysis result stored in `st.session_state["results"]`. -/
structure AnalysisOut where
  plag_percent : Nat
  sensitive_words : List String
  transcript : String
deriving DecidableEq

/-- The cleanup lines 165–167 of the Upload handler:
`os.remove(video_path)` then a guarded `os.remove(audio_path)`. -/
def cleanupMain (fs : FS) : FS :=
  let fs1 := removeFile "temp_video.mp4" fs
  if "temp_audio.wav" ∈ fs1 then removeFile "temp_audio.wav" fs1 else fs1

/-- The "Run Full Check" handler of the Upload tab (`app_real.py` lines
130–169).  The uploaded video is first written to `temp_video.mp4`.
`extractOk` is the outcome of the external ffmpeg call (`extract_audio`
catches its own exceptions and returns a Bool); on success ffmpeg has
written `temp_audio.wav`.  `transcriptRes` is the outcome of
`transcribe_audio` (`none` models the caught-exception path returning
`None`); a falsy transcript — `None` or `""` — skips the scoring block.
The cleanup lines run only inside the successful-extraction branch, and
an exception escaping `check_plagiarism` skips them too.  The scoring
block of the handler (lines 154–163) together with the cleanup lines
that follow it is split off as `runScored`: plagiarism check,
sensitivity screening, result stored; an exception escaping
`check_plagiarism` skips both the result and the cleanup. -/
def runScored (t : String) (reference_files : List RefFile) (seed : Nat)
    (fs1 : FS) : Option AnalysisOut × FS :=
  match check_plagiarism t reference_files seed fs1 with
  | (Except.ok sc, fs2) =>
    (some ⟨sc, fake_sensitive_check t, t⟩, cleanupMain fs2)
  | (Except.error _, fs2) => (none, fs2)

/-- The "Run Full Check" handler of the Upload tab, sequencing video
write, extraction, transcription, scoring and cleanup as described on
`runScored`. -/
def runFullCheck (reference_files : List RefFile) (extractOk : Bool)
    (transcriptRes : Option String) (seed : Nat) : Option AnalysisOut × FS :=
  let fs0 := createFile "temp_video.mp4" []
  if extractOk then
    let fs1 := createFile "temp_audio.wav" fs0
    match transcriptRes with
    | some t =>
      if t = "" then (none, cleanupMain fs1)
      else runScored t reference_files seed fs1
    | none => (none, cleanupMain fs1)
  else (none, fs0)

/-! ### Properties of the similarity scorer -/

theorem lcsAux_le (fuel : Nat) :
    ∀ a b : List Char, lcsAux fuel a b ≤ a.length ∧ lcsAux fuel a b ≤ b.length := by
  induction fuel with
  | zero => intro a b; simp [lcsAux]
  | succ f ih =>
    intro a b
    match a, b with
    | [], b => simp [lcsAux]
    | a :: as, [] => simp [lcsAux]
    | a :: as, b :: bs =>
      simp only [lcsAux, List.length_cons]
      split
      · have h := ih as bs
        omega
      · have h1 := ih (a :: as) bs
        have h2 := ih as (b :: bs)
        simp only [List.length_cons] at h1 h2
        omega

theorem lcsAux_self (a : List Char) :
    ∀ fuel : Nat, a.length ≤ fuel → lcsAux fuel a a = a.length := by
  induction a with
  | nil => intro fuel _; cases fuel <;> simp [lcsAux]
  | cons c cs ih =>
    intro fuel h
    match fuel with
    | f + 1 =>
      have hcs : cs.length ≤ f := by
        simpa [Nat.succ_le_succ_iff] using h
      simp only [lcsAux, List.length_cons]
      simp [ih f hcs]

theorem lcsLen_self (a : List Char) : lcsLen a a = a.length :=
  lcsAux_self a _ (by omega)

theorem ratioN_le_100 (a b : List Char) : ratioN a b ≤ 100 := by
  unfold ratioN
  split
  · exact le_refl 100
  · rename_i hS
    have h := lcsAux_le (a.length + b.length) a b
    have hlt : (400 * lcsLen a b + (a.length + b.length)) /
        (2 * (a.length + b.length)) < 101 := by
      rw [Nat.div_lt_iff_lt_mul (by omega)]
      unfold lcsLen
      omega
    omega

theorem ratioN_self (a : List Char) : ratioN a a = 100 := by
  unfold ratioN
  split
  · rfl
  · rename_i hS
    rw [lcsLen_self]
    have hpos : 0 < a.length := by omega
    have h1 : (400 * a.length + (a.length + a.length)) /
        (2 * (a.length + a.length)) < 101 := by
      rw [Nat.div_lt_iff_lt_mul (by omega)]
      omega
    have h2 : 100 ≤ (400 * a.length + (a.length + a.length)) /
        (2 * (a.length + a.length)) := by
      rw [Nat.le_div_iff_mul_le (by omega)]
      omega
    omega

theorem token_set_ratioNat_le_100 (s1 s2 : String) :
    token_set_ratioNat s1 s2 ≤ 100 := by
  unfold token_set_ratioNat
  split
  · omega
  · exact max_le (ratioN_le_100 _ _)
      (max_le (ratioN_le_100 _ _) (ratioN_le_100 _ _))

theorem calculate_similarity_le_100 (t r : String) :
    calculate_similarity t r ≤ 100 :=
  token_set_ratioNat_le_100 t r

theorem insertStr_ne_nil (x : String) (l : List String) :
    insertStr x l ≠ [] := by
  cases l with
  | nil => simp [insertStr]
  | cons y ys => unfold insertStr; split <;> simp

theorem sortStrings_eq_nil_iff (l : List String) :
    sortStrings l = [] ↔ l = [] := by
  cases l with
  | nil => simp [sortStrings]
  | cons x xs =>
    simp only [sortStrings]
    exact ⟨fun h => absurd h (insertStr_ne_nil x _), fun h => by cases h⟩

theorem sortedTokenSet_eq_nil_iff (s : String) :
    sortedTokenSet s = [] ↔ tokens s = [] := by
  unfold sortedTokenSet
  rw [sortStrings_eq_nil_iff, List.dedup_eq_nil]

theorem interTokens_self (t : String) :
    interTokens t t = sortedTokenSet t := by
  unfold interTokens
  rw [List.filter_eq_self]
  intro a ha
  simpa using ha

theorem diffTokens_self (t : String) : diffTokens t t = [] := by
  unfold diffTokens
  rw [List.filter_eq_nil_iff]
  intro a ha
  simpa using ha

theorem token_set_ratioNat_self (t : String) (h : sortedTokenSet t ≠ []) :
    token_set_ratioNat t t = 100 := by
  unfold token_set_ratioNat
  rw [interTokens_self, diffTokens_self, List.append_nil]
  rw [if_neg (by simpa [List.isEmpty_iff] using h)]
  simp [ratioN_self]

theorem sortedTokenSet_empty : sortedTokenSet "" = [] := rfl

theorem calculate_similarity_empty_ref (t : String) :
    calculate_similarity t "" = 0 := by
  unfold calculate_similarity token_set_ratioNat
  rw [if_pos]
  rw [sortedTokenSet_empty]
  simp

/-! ### Properties of `check_plagiarism` and the reference loop -/

theorem randint_15_50_mem (seed : Nat) :
    15 ≤ randint 15 50 seed ∧ randint 15 50 seed ≤ 50 := by
  unfold randint
  have : seed % (50 + 1 - 15) < 36 := Nat.mod_lt _ (by omega)
  omega

theorem foldl_max_le (bound : Nat) :
    ∀ (xs : List Nat) (x : Nat), x ≤ bound → (∀ y ∈ xs, y ≤ bound) →
      xs.foldl max x ≤ bound := by
  intro xs
  induction xs with
  | nil => intro x hx _; simpa using hx
  | cons y ys ih =>
    intro x hx hys
    simp only [List.foldl_cons]
    exact ih (max x y) (max_le hx (hys y (by simp)))
      (fun z hz => hys z (by simp [hz]))

theorem maxList_le (bound : Nat) (l : List Nat) (h : ∀ y ∈ l, y ≤ bound) :
    maxList l ≤ bound := by
  cases l with
  | nil => simp [maxList]
  | cons x xs =>
    exact foldl_max_le bound xs x (h x (by simp))
      (fun y hy => h y (by simp [hy]))

theorem read_reference_file_fst_ok (r : RefFile) (fs : FS)
    (h : refOk r = true) :
    (read_reference_file r fs).1 = Except.ok (refText r) := by
  cases r with
  | txt c => rfl
  | pdf p => cases p with
    | some t => rfl
    | none => simp [refOk] at h
  | docx p => cases p with
    | some t => rfl
    | none => simp [refOk] at h
  | other => rfl

theorem read_reference_file_ok (r : RefFile) (fs : FS)
    (h : refOk r = true)
    (h1 : "temp_ref.pdf" ∉ fs) (h2 : "temp_ref.docx" ∉ fs) :
    read_reference_file r fs = (Except.ok (refText r), fs) := by
  cases r with
  | txt c => rfl
  | pdf p => cases p with
    | some t =>
      simp only [read_reference_file, refText, createFile, if_neg h1,
        removeFile, List.erase_cons_head]
    | none => simp [refOk] at h
  | docx p => cases p with
    | some t =>
      simp only [read_reference_file, refText, createFile, if_neg h2,
        removeFile, List.erase_cons_head]
    | none => simp [refOk] at h
  | other => rfl

theorem plagLoop_ok (t : String) :
    ∀ (rs : List RefFile) (fs : FS) (sims : List Nat),
      (∀ r ∈ rs, refOk r = true) →
      "temp_ref.pdf" ∉ fs → "temp_ref.docx" ∉ fs →
      plagLoop t rs fs sims =
        (Except.ok (sims ++ rs.map (fun r => calculate_similarity t (refText r))), fs) := by
  intro rs
  induction rs with
  | nil => intro fs sims _ _ _; simp [plagLoop]
  | cons r rs ih =>
    intro fs sims hok h1 h2
    have hr : refOk r = true := hok r (by simp)
    simp only [plagLoop, read_reference_file_ok r fs hr h1 h2]
    rw [ih fs (sims ++ [calculate_similarity t (refText r)])
      (fun x hx => hok x (by simp [hx])) h1 h2]
    simp

theorem plagLoop_fst_ok (t : String) :
    ∀ (rs : List RefFile) (fs : FS) (sims : List Nat),
      (∀ r ∈ rs, refOk r = true) →
      (plagLoop t rs fs sims).1 =
        Except.ok (sims ++ rs.map (fun r => calculate_similarity t (refText r))) := by
  intro rs
  induction rs with
  | nil => intro fs sims _; simp [plagLoop]
  | cons r rs ih =>
    intro fs sims hok
    have hr : refOk r = true := hok r (by simp)
    have hfst := read_reference_file_fst_ok r fs hr
    simp only [plagLoop]
    cases hread : read_reference_file r fs with
    | mk res fs1 =>
      cases res with
      | error e => rw [hread] at hfst; simp at hfst
      | ok txt =>
        rw [hread] at hfst
        simp only at hfst
        cases hfst
        simp only
        rw [ih fs1 (sims ++ [calculate_similarity t (refText r)])
          (fun x hx => hok x (by simp [hx]))]
        simp

theorem plagLoop_fst_bounded (t : String) :
    ∀ (rs : List RefFile) (fs : FS) (sims : List Nat) (out : List Nat),
      (plagLoop t rs fs sims).1 = Except.ok out →
      (∀ x ∈ sims, x ≤ 100) → ∀ x ∈ out, x ≤ 100 := by
  intro rs
  induction rs with
  | nil =>
    intro fs sims out h hs
    simp only [plagLoop, Except.ok.injEq] at h
    cases h
    exact hs
  | cons r rs ih =>
    intro fs sims out h hs
    simp only [plagLoop] at h
    cases hread : read_reference_file r fs with
    | mk res fs1 =>
      rw [hread] at h
      cases res with
      | error e => simp at h
      | ok txt =>
        simp only at h
        refine ih fs1 _ out h ?_
        intro x hx
        rcases List.mem_append.mp hx with hx | hx
        · exact hs x hx
        · simp only [List.mem_singleton] at hx
          cases hx
          exact calculate_similarity_le_100 t txt

theorem check_plagiarism_ok (t : String) (refs : List RefFile) (seed : Nat)
    (fs : FS) (hok : ∀ r ∈ refs, refOk r = true)
    (h1 : "temp_ref.pdf" ∉ fs) (h2 : "temp_ref.docx" ∉ fs) :
    check_plagiarism t refs seed fs =
      (Except.ok (if refs.isEmpty then randint 15 50 seed
        else maxList (refs.map (fun r => calculate_similarity t (refText r)))),
        fs) := by
  unfold check_plagiarism
  cases refs with
  | nil => simp
  | cons r rs =>
    rw [plagLoop_ok t (r :: rs) fs [] hok h1 h2]
    simp

theorem check_plagiarism_fst_ok (t : String) (refs : List RefFile)
    (seed : Nat) (fs : FS) (hok : ∀ r ∈ refs, refOk r = true)
    (hne : refs ≠ []) :
    (check_plagiarism t refs seed fs).1 =
      Except.ok (maxList (refs.map (fun r => calculate_similarity t (refText r)))) := by
  unfold check_plagiarism
  cases refs with
  | nil => exact absurd rfl hne
  | cons r rs =>
    simp only [List.isEmpty_cons, Bool.false_eq_true, if_false]
    cases hloop : plagLoop t (r :: rs) fs [] with
    | mk res fs1 =>
      have hfst := plagLoop_fst_ok t (r :: rs) fs [] hok
      rw [hloop] at hfst
      simp only at hfst
      cases hfst
      simp

/-! ### The claims -/

/-- C1: for every similarity score `s` and sensitive-hit list `hits`, the
risk aggregation of the Results tab is HIGH iff `s > 75` or `hits` is
non-empty, MEDIUM iff `40 < s ≤ 75` with empty `hits`, LOW iff `s ≤ 40`
with empty `hits`; with empty `hits` the boundary values give
`40 ↦ LOW`, `41 ↦ MEDIUM`, `75 ↦ MEDIUM`, `76 ↦ HIGH`. -/
theorem risk_aggregation_table (s : Nat) (hits : List String) :
    (riskLevel s hits = Risk.high ↔ (75 < s ∨ hits ≠ []))
    ∧ (riskLevel s hits = Risk.medium ↔ (40 < s ∧ s ≤ 75 ∧ hits = []))
    ∧ (riskLevel s hits = Risk.low ↔ (s ≤ 40 ∧ hits = []))
    ∧ riskLevel 40 [] = Risk.low
    ∧ riskLevel 41 [] = Risk.medium
    ∧ riskLevel 75 [] = Risk.medium
    ∧ riskLevel 76 [] = Risk.high := by
  refine ⟨?_, ?_, ?_, by decide, by decide, by decide, by decide⟩
  · unfold riskLevel
    split_ifs with h1 h2
    · exact iff_of_true rfl h1
    · exact iff_of_false (by simp) h1
    · exact iff_of_false (by simp) h1
  · unfold riskLevel
    split_ifs with h1 h2
    · refine iff_of_false (by simp) ?_
      rintro ⟨_, hs75, hnil⟩
      rcases h1 with h | h
      · omega
      · exact h hnil
    · push_neg at h1
      exact iff_of_true rfl ⟨h2, by omega, h1.2⟩
    · refine iff_of_false (by simp) ?_
      rintro ⟨hs40, _, _⟩
      omega
  · unfold riskLevel
    split_ifs with h1 h2
    · refine iff_of_false (by simp) ?_
      rintro ⟨hs, hnil⟩
      rcases h1 with h | h
      · omega
      · exact h hnil
    · refine iff_of_false (by simp) ?_
      rintro ⟨hs40, _⟩
      omega
    · push_neg at h1
      exact iff_of_true rfl ⟨by omega, h1.2⟩

/-- C2 counterexample: when the ffmpeg extraction fails, the Upload
handler takes the `else` branch that skips the cleanup lines, so the
temporary video copy written at the start of the run is still present at
its reserved path after the analysis ends (with no result produced). -/
theorem extraction_failure_leaves_temp_video :
    (runFullCheck [] false none 0).1 = none
    ∧ "temp_video.mp4" ∈ (runFullCheck [] false none 0).2 := by decide

/-- C2 amended: when the audio extraction succeeds and loading the
supplied references raises no exception, no temporary files remain after
the run, whether or not transcription produces a usable transcript; the
claim as stated fails on the extraction-failure path (the temporary video
copy survives) and on a reference parse failure (the temporary reference
copy, video and audio all survive, the exception skipping the cleanup
lines). -/
theorem cleanup_on_main_paths (refs : List RefFile) (tr : Option String)
    (seed : Nat) (hok : ∀ r ∈ refs, refOk r = true) :
    (runFullCheck refs true tr seed).2 = [] := by
  have hclean : cleanupMain ["temp_audio.wav", "temp_video.mp4"] = [] := by
    decide
  cases tr with
  | none =>
    show cleanupMain ["temp_audio.wav", "temp_video.mp4"] = []
    exact hclean
  | some t =>
    by_cases ht : t = ""
    · subst ht
      show cleanupMain ["temp_audio.wav", "temp_video.mp4"] = []
      exact hclean
    · show (if t = "" then
          ((none : Option AnalysisOut),
            cleanupMain ["temp_audio.wav", "temp_video.mp4"])
        else runScored t refs seed ["temp_audio.wav", "temp_video.mp4"]).2 = []
      rw [if_neg ht]
      unfold runScored
      rw [check_plagiarism_ok t refs seed ["temp_audio.wav", "temp_video.mp4"]
        hok (by decide) (by decide)]
      exact hclean

/-- C2 witness. -/
theorem cleanup_on_main_paths_wit :
    (∀ r ∈ ([RefFile.txt "a"] : List RefFile), refOk r = true)
    ∧ (runFullCheck [RefFile.txt "a"] true (some "hello") 0).2 = [] :=
  ⟨by decide,
    cleanup_on_main_paths [RefFile.txt "a"] (some "hello") 0 (by decide)⟩

/-- C3 counterexample: a parse failure in the first reference document is
not isolated — the exception aborts `check_plagiarism`, the second
(perfectly readable) reference is never scored, and the analysis
completes with no result at all instead of completing with a zero
contribution. -/
theorem reference_parse_failure_aborts :
    (runFullCheck [RefFile.pdf none, RefFile.txt "hello"] true
      (some "hello") 0).1 = none := by decide

/-- C3 amended: only the unsupported-extension degradation is isolated: a
reference whose name matches no branch of `read_reference_file` yields
empty text, the analysis still completes scoring every reference, and
that reference contributes a zero similarity; a parsing or I/O failure
(pdf/docx extractor raising) instead aborts the whole analysis. -/
theorem unsupported_reference_isolated (t : String) (rs1 rs2 : List RefFile)
    (seed : Nat) (fs : FS)
    (hok : ∀ r ∈ rs1 ++ RefFile.other :: rs2, refOk r = true) :
    (check_plagiarism t (rs1 ++ RefFile.other :: rs2) seed fs).1 =
      Except.ok (maxList ((rs1 ++ RefFile.other :: rs2).map
        (fun r => calculate_similarity t (refText r))))
    ∧ calculate_similarity t (refText RefFile.other) = 0 := by
  constructor
  · exact check_plagiarism_fst_ok t _ seed fs hok (by simp)
  · exact calculate_similarity_empty_ref t

/-- C3 witness. -/
theorem unsupported_reference_isolated_wit :
    (check_plagiarism "hi" ([] ++ RefFile.other :: [RefFile.txt "hi"]) 0 []).1 =
      Except.ok (maxList (([] ++ RefFile.other :: [RefFile.txt "hi"]).map
        (fun r => calculate_similarity "hi" (refText r))))
    ∧ calculate_similarity "hi" (refText RefFile.other) = 0 :=
  unsupported_reference_isolated "hi" [] [RefFile.txt "hi"] 0 [] (by decide)

/-- C4: the sensitivity screener returns exactly the keywords of the
fixed list whose lowercased form occurs as a substring of the lowercased
transcript; the hits carry the list's original casing (they are elements
of `keywords`), appear in keyword-list order (a sublist of `keywords`),
and contain no duplicates. -/
theorem sensitive_check_exact (t : String) :
    (∀ k, k ∈ fake_sensitive_check t ↔
      (k ∈ keywords ∧ strContains (lowerStr t) (lowerStr k) = true))
    ∧ (fake_sensitive_check t).Nodup
    ∧ (fake_sensitive_check t).Sublist keywords := by
  refine ⟨fun k => List.mem_filter, ?_, List.filter_sublist _⟩
  exact List.Nodup.filter _ (by decide)

/-- C5: with zero reference documents the plagiarism check returns (with
no error) the pseudo-random draw, an integer in the closed interval
[15, 50], for every seed of the generator. -/
theorem no_reference_random_score (t : String) (seed : Nat) (fs : FS) :
    check_plagiarism t [] seed fs = (Except.ok (randint 15 50 seed), fs)
    ∧ 15 ≤ randint 15 50 seed ∧ randint 15 50 seed ≤ 50 :=
  ⟨by simp [check_plagiarism], (randint_15_50_mem seed).1,
    (randint_15_50_mem seed).2⟩

/-- C6: with one or more reference documents (all of them readable), the
aggregate similarity score is the maximum of the per-reference
similarity scores. -/
theorem aggregate_score_is_max (t : String) (refs : List RefFile)
    (seed : Nat) (fs : FS) (hne : refs ≠ [])
    (hok : ∀ r ∈ refs, refOk r = true) :
    (check_plagiarism t refs seed fs).1 =
      Except.ok (maxList (refs.map (fun r => calculate_similarity t (refText r)))) :=
  check_plagiarism_fst_ok t refs seed fs hok hne

/-- C6 witness. -/
theorem aggregate_score_is_max_wit :
    (check_plagiarism "a" [RefFile.txt "a"] 0 []).1 =
      Except.ok (maxList ([RefFile.txt "a"].map
        (fun r => calculate_similarity "a" (refText r)))) :=
  aggregate_score_is_max "a" [RefFile.txt "a"] 0 [] (by simp) (by decide)

/-- C7: whenever the plagiarism check returns a score — for any
transcript, any reference list, any random seed — that score is a
natural number in the closed interval [0, 100]. -/
theorem similarity_score_in_range (t : String) (refs : List RefFile)
    (seed : Nat) (fs : FS) (s : Nat)
    (h : (check_plagiarism t refs seed fs).1 = Except.ok s) :
    0 ≤ s ∧ s ≤ 100 := by
  refine ⟨Nat.zero_le s, ?_⟩
  unfold check_plagiarism at h
  cases refs with
  | nil =>
    simp only [List.isEmpty_nil, if_pos rfl, Except.ok.injEq] at h
    cases h
    exact le_trans (randint_15_50_mem seed).2 (by omega)
  | cons r rs =>
    simp only [List.isEmpty_cons, Bool.false_eq_true, if_false] at h
    cases hloop : plagLoop t (r :: rs) fs [] with
    | mk res fs1 =>
      rw [hloop] at h
      cases res with
      | error e => simp at h
      | ok sims =>
        simp only at h
        have hbound : ∀ x ∈ sims, x ≤ 100 :=
          plagLoop_fst_bounded t (r :: rs) fs [] sims
            (by rw [hloop]) (by simp)
        by_cases hs : sims.isEmpty
        · rw [if_pos hs] at h
          cases h
          exact le_trans (randint_15_50_mem seed).2 (by omega)
        · rw [if_neg hs] at h
          cases h
          exact maxList_le 100 sims hbound

/-- C7 witness. -/
theorem similarity_score_in_range_wit : 0 ≤ 15 ∧ 15 ≤ 100 :=
  similarity_score_in_range "a" [] 0 [] 15 rfl

/-- C8 counterexample: scoring the empty transcript against itself
returns 0, not 100 — the matcher returns 0 whenever either token set is
empty, which the spec itself requires of the empty reference
(`score(t, "") = 0` at `t = ""` contradicts `score(t, t) = 100`). -/
theorem self_similarity_fails_on_empty :
    calculate_similarity "" "" ≠ 100 := by decide

/-- C8 amended: for every text with at least one whitespace-separated
token, scoring the text against itself returns 100; on a token-less text
(empty or all-whitespace) the score is 0. -/
theorem self_similarity_100 (t : String) (h : tokens t ≠ []) :
    calculate_similarity t t = 100 := by
  apply token_set_ratioNat_self
  rw [Ne, sortedTokenSet_eq_nil_iff]
  exact h

/-- C8 witness. -/
theorem self_similarity_100_wit :
    tokens "hello world" ≠ []
    ∧ calculate_similarity "hello world" "hello world" = 100 :=
  ⟨by decide, self_similarity_100 "hello world" (by decide)⟩

/-- C9: scoring any transcript against the empty reference text returns
0 (the empty string has an empty token set, so the matcher's guard
fires). -/
theorem empty_reference_scores_zero (t : String) :
    calculate_similarity t "" = 0 :=
  calculate_similarity_empty_ref t

/-- C10: for a fixed hit list the risk verdict is monotone in the
similarity score under LOW < MEDIUM < HIGH. -/
theorem risk_monotone (hits : List String) (s1 s2 : Nat) (h : s1 ≤ s2) :
    riskRank (riskLevel s1 hits) ≤ riskRank (riskLevel s2 hits) := by
  by_cases he : hits = []
  · subst he
    unfold riskLevel
    split_ifs <;> simp_all [riskRank] <;> omega
  · unfold riskLevel
    rw [if_pos (Or.inr he), if_pos (Or.inr he)]

/-- C10 witness. -/
theorem risk_monotone_wit :
    riskRank (riskLevel 10 []) ≤ riskRank (riskLevel 50 []) :=
  risk_monotone [] 10 50 (by omega)

-- Concrete evaluations checking that the embedding computes as the app
-- does on small inputs.
example : sortedTokenSet "world hello hello" = ["hello", "world"] := by decide
example : calculate_similarity "hello world" "hello world" = 100 := by decide
example : calculate_similarity "" "" = 0 := by decide
example : calculate_similarity "abc" "" = 0 := by decide
example : fake_sensitive_check "I will KILL you" = ["kill"] := by decide
example : keywords.Nodup := by decide
example : riskLevel 76 [] = Risk.high := by decide
example : lowerStr "KiLL" = "kill" := by decide
